import Mathlib

/-!
Verification of the NetSecMonitor anomaly-detection engine
(`src/anomaly_detector.py`) against its natural-language specification.

Shallow embedding conventions:
* SQL tables are lists of rows; `datetime` values are integers (seconds);
  SQLite's `datetime('now', '-N minutes')` comparisons become integer
  comparisons against an explicit `now` parameter.
* Python floats (baseline statistics) are modelled as real numbers; the
  integer-valued columns (packet sizes, ports, counts) are natural numbers.
* Each detector method is split into its pure candidate computation
  (a function of the event window, as in spec section 4.2) and the shared
  effectful `create_alert` path; `run_all_detections` is additionally
  modelled over a connection that can report an SQLite error on any of
  its SELECT/INSERT statements (`Except`), mirroring which call sites in
  the Python source do and do not catch `sqlite3.Error`.
-/

/-- A row of the `traffic_events` table (written by the external producer). -/
structure TrafficEvent where
  timestamp : Int
  source_ip : String
  destination_ip : String
  source_port : Nat
  destination_port : Nat
  protocol : String
  packet_size : Nat
  flags : String
  payload_preview : String
deriving DecidableEq

/-- A row of the `baseline_profiles` table. -/
structure BaselineRow where
  profile_name : String
  metric_name : String
  baseline_value : ℝ
  std_deviation : ℝ
  threshold_high : ℝ
  threshold_low : ℝ

/-- A row of the `security_alerts` table. `source_ip` is nullable. -/
structure AlertRow where
  timestamp : Int
  alert_type : String
  severity : String
  source_ip : Option String
  description : String
  details : String
  status : String
deriving DecidableEq

/-- The persistent store (`netsec_monitor.db`). -/
structure DB where
  traffic_events : List TrafficEvent
  baseline_profiles : List BaselineRow
  security_alerts : List AlertRow

/-- One entry of the in-memory baseline cache `self.baselines`
(`load_baselines`, lines 30-46): the dict value for one profile row. -/
structure CacheEntry where
  baseline : ℝ
  std_dev : ℝ
  threshold_high : ℝ
  threshold_low : ℝ

/-- `load_baselines` (lines 30-46): one cache binding per stored row.
`self.baselines` is a Python dict keyed by `f"{profile_name}_{metric_name}"`,
modelled as an association list where a later binding shadows an earlier one. -/
def load_baselines (rows : List BaselineRow) : List (String × CacheEntry) :=
  rows.map (fun r =>
    (r.profile_name ++ "_" ++ r.metric_name,
     ⟨r.baseline_value, r.std_deviation, r.threshold_high, r.threshold_low⟩))

/-- Dict lookup: the rightmost (latest) binding for the key wins. -/
def lookupCache (cache : List (String × CacheEntry)) (k : String) :
    Option CacheEntry :=
  (cache.reverse.find? (fun p => p.1 == k)).map (fun p => p.2)

/-- The `AnomalyDetector` object: its connection's database plus the
in-memory baseline cache loaded at construction. -/
structure AnomalyDetector where
  db : DB
  baselines : List (String × CacheEntry)

/-- `AnomalyDetector.__init__` (lines 25-28): connect and `load_baselines`. -/
def mkDetector (db : DB) : AnomalyDetector :=
  ⟨db, load_baselines db.baseline_profiles⟩

/-- `WHERE timestamp > datetime('now', '-(secs seconds)')`:
the trailing window of the event log. -/
def recentEvents (events : List TrafficEvent) (now secs : Int) :
    List TrafficEvent :=
  events.filter (fun e => decide (now - secs < e.timestamp))

/-- `GROUP BY strftime('%Y-%m-%d %H:%M', timestamp)` over the lookback
window (lines 57-64): per-minute event counts.  A minute bucket of an
epoch-second timestamp is its floor-quotient by 60. -/
def bucketCounts (events : List TrafficEvent) (now : Int)
    (lookback_hours : Nat) : List Nat :=
  ((recentEvents events now ((lookback_hours : Int) * 3600)).map
      (fun e => e.timestamp.fdiv 60)).dedup.map
    (fun k =>
      ((recentEvents events now ((lookback_hours : Int) * 3600)).filter
        (fun e => e.timestamp.fdiv 60 == k)).length)

/-- `statistics.mean` over the bucket counts. -/
noncomputable def mean (v : List Nat) : ℝ :=
  ((v.map (fun x => (x : ℝ))).sum) / (v.length : ℝ)

/-- The Bessel-corrected sample variance (divisor `n - 1`),
the radicand of `statistics.stdev`. -/
noncomputable def besselVar (v : List Nat) : ℝ :=
  ((v.map (fun x => ((x : ℝ) - mean v) ^ 2)).sum) / ((v.length : ℝ) - 1)

/-- `statistics.stdev`: the Bessel-corrected sample standard deviation. -/
noncomputable def stdev (v : List Nat) : ℝ :=
  Real.sqrt (besselVar v)

/-- The row written by `establish_baseline` (lines 67-81): mean, stdev and
the three-sigma thresholds, the low one floored at zero. -/
noncomputable def mkBaselineRow (profile metric : String) (v : List Nat) :
    BaselineRow :=
  ⟨profile, metric, mean v, stdev v,
   mean v + 3 * stdev v, max 0 (mean v - 3 * stdev v)⟩

/-- `INSERT OR REPLACE INTO baseline_profiles` (lines 75-81).
Modelled from the spec: `database/schema.sql` is not under `src/`; spec
section 6 records `baseline_profiles` as unique on
`(profile_name, metric_name)`, so the statement replaces the row with the
same key, if any. -/
def upsertBaseline (row : BaselineRow) (rows : List BaselineRow) :
    List BaselineRow :=
  (rows.filter (fun r =>
    !(r.profile_name == row.profile_name && r.metric_name == row.metric_name)))
    ++ [row]

/-- `establish_baseline` (lines 48-91).  Only the metric
`'packets_per_minute'` has an implementation; with more than 10 bucket
counts it upserts the statistics row and returns `True`, otherwise it
falls through to `return False` with no write. -/
noncomputable def establish_baseline (st : AnomalyDetector)
    (profile metric : String) (lookback_hours : Nat) (now : Int) :
    AnomalyDetector × Bool :=
  if metric = "packets_per_minute" then
    if 10 < (bucketCounts st.db.traffic_events now lookback_hours).length then
      ({ st with
          db := { st.db with
            baseline_profiles :=
              upsertBaseline
                (mkBaselineRow profile metric
                  (bucketCounts st.db.traffic_events now lookback_hours))
                st.db.baseline_profiles } },
       true)
    else (st, false)
  else (st, false)

/-- A candidate alert: the argument tuple of a `create_alert` call, before
the Deduplicator decides whether it is persisted. -/
structure Candidate where
  alert_type : String
  severity : String
  source_ip : Option String
  description : String
  details : String
deriving DecidableEq

/-- Round the exact fraction `num / den` to the nearest integer, ties to
even, as Python's fixed-point `format` does at the last kept digit. -/
def roundHalfEvenDiv (num den : Nat) : Nat :=
  if 2 * (num % den) < den then num / den
  else if den < 2 * (num % den) then num / den + 1
  else if num / den % 2 = 0 then num / den else num / den + 1

/-- Left-pad a digit pair to two characters. -/
def pad2 (n : Nat) : String :=
  if n < 10 then "0" ++ toString n else toString n

/-- Python `f"{bytes / 1048576:.2f}"`: megabytes with two decimals
(the float value modelled as the exact fraction). -/
def fmtMB (bytes : Nat) : String :=
  toString (roundHalfEvenDiv (bytes * 100) 1048576 / 100) ++ "." ++
    pad2 (roundHalfEvenDiv (bytes * 100) 1048576 % 100)

/-- Python `f"{pct:.1f}"` for the percentage `num / den * 100`:
one decimal place of the exact fraction. -/
def fmt1Pct (num den : Nat) : String :=
  toString (roundHalfEvenDiv (num * 1000) den / 10) ++ "." ++
    toString (roundHalfEvenDiv (num * 1000) den % 10)

/-- Round a real to the nearest integer, ties to even
(Python `f"{x:.0f}"`). -/
noncomputable def roundHalfEvenR (x : ℝ) : ℤ :=
  if x - ⌊x⌋ < 1 / 2 then ⌊x⌋
  else if 1 / 2 < x - ⌊x⌋ then ⌊x⌋ + 1
  else if ⌊x⌋ % 2 = 0 then ⌊x⌋ else ⌊x⌋ + 1

/-- Python `f"{x:.0f}"` on a stored baseline float. -/
noncomputable def fmt0 (x : ℝ) : String :=
  toString (roundHalfEvenR x)

/-! ## D1: `detect_port_scan` (lines 93-128) -/

/-- The window rows with the given source IP. -/
def eventsFrom (es : List TrafficEvent) (s : String) : List TrafficEvent :=
  es.filter (fun e => e.source_ip == s)

/-- `COUNT(DISTINCT destination_port)` for one source IP. -/
def distinctPorts (es : List TrafficEvent) (s : String) : Nat :=
  ((eventsFrom es s).map (fun e => e.destination_port)).dedup.length

/-- `COUNT(*)` for one source IP (`total_attempts`). -/
def attemptsFrom (es : List TrafficEvent) (s : String) : Nat :=
  (eventsFrom es s).length

/-- `GROUP BY source_ip HAVING unique_ports > 20`: the qualifying
source IPs (each once). -/
def portScanSources (events : List TrafficEvent) (now : Int)
    (lookback_minutes : Nat) : List String :=
  (((recentEvents events now ((lookback_minutes : Int) * 60)).map
      (fun e => e.source_ip)).dedup).filter
    (fun s =>
      decide (20 <
        distinctPorts (recentEvents events now ((lookback_minutes : Int) * 60)) s))

/-- The `create_alert` argument tuple built for one port-scan row
(lines 119-125). -/
def mkPortScanCandidate (s : String) (uniquePorts totalAttempts : Nat)
    (lookback_minutes : Nat) : Candidate :=
  ⟨"port_scan",
   if 50 < uniquePorts then "high" else "medium",
   some s,
   "Potential port scan detected from " ++ s,
   "Contacted " ++ toString uniquePorts ++ " unique ports with " ++
     toString totalAttempts ++ " attempts in " ++ toString lookback_minutes ++
     " minutes"⟩

/-- The candidate alerts of one `detect_port_scan` pass. -/
def portScanCandidates (events : List TrafficEvent) (now : Int)
    (lookback_minutes : Nat) : List Candidate :=
  (portScanSources events now lookback_minutes).map
    (fun s =>
      mkPortScanCandidate s
        (distinctPorts (recentEvents events now ((lookback_minutes : Int) * 60)) s)
        (attemptsFrom (recentEvents events now ((lookback_minutes : Int) * 60)) s)
        lookback_minutes)

/-! ## D2: `detect_traffic_spike` (lines 130-163) -/

/-- `SELECT COUNT(*) ... WHERE timestamp > datetime('now', '-1 minute')`. -/
def currentCount (events : List TrafficEvent) (now : Int) : Nat :=
  (recentEvents events now 60).length

/-- The candidate built at lines 154-160. -/
noncomputable def mkSpikeCandidate (cnt : Nat) (b : CacheEntry) : Candidate :=
  ⟨"traffic_spike",
   if (cnt : ℝ) > b.threshold_high * 2 then "critical" else "high",
   none,
   "Unusual traffic volume spike detected",
   "Current: " ++ toString cnt ++ " packets/min, Normal baseline: " ++
     fmt0 b.baseline ++ " packets/min"⟩

/-- The baseline-comparison step of `detect_traffic_spike`, given the
already-fetched current count. -/
noncomputable def spikeFromCount (cnt : Nat)
    (cache : List (String × CacheEntry)) : Option Candidate :=
  match lookupCache cache "normal_traffic_packets_per_minute" with
  | none => none
  | some b =>
    if (cnt : ℝ) > b.threshold_high then some (mkSpikeCandidate cnt b)
    else none

/-- The candidate (at most one) of one `detect_traffic_spike` pass. -/
noncomputable def trafficSpikeCandidate (events : List TrafficEvent)
    (cache : List (String × CacheEntry)) (now : Int) : Option Candidate :=
  spikeFromCount (currentCount events now) cache

/-! ## D3: `detect_unusual_protocol` (lines 165-200) -/

/-- The trailing one-hour window. -/
def protocolWindow (events : List TrafficEvent) (now : Int) :
    List TrafficEvent :=
  recentEvents events now 3600

/-- `COUNT(*)` of one protocol's rows in the window. -/
def protocolCount (es : List TrafficEvent) (p : String) : Nat :=
  (es.filter (fun e => e.protocol == p)).length

/-- `HAVING percentage > 30 AND protocol NOT IN ('TCP','UDP','HTTP','HTTPS')`,
where percentage is `COUNT(*) * 100.0 / total`.  For the window sizes at
which a group exists (`total > 0`) the real comparison
`count * 100 / total > 30` is exactly the integer comparison
`30 * total < 100 * count`, which is how it is stated here. -/
def unusualProtocols (events : List TrafficEvent) (now : Int) : List String :=
  (((protocolWindow events now).map (fun e => e.protocol)).dedup).filter
    (fun p =>
      decide (30 * (protocolWindow events now).length <
          100 * protocolCount (protocolWindow events now) p) &&
        !(["TCP", "UDP", "HTTP", "HTTPS"].contains p))

/-- The `create_alert` argument tuple of lines 191-197 (`count` of `total`
window rows). -/
def mkProtocolCandidate (p : String) (count total : Nat) : Candidate :=
  ⟨"unusual_protocol", "medium", none,
   "Unusual protocol usage: " ++ p,
   p ++ " comprises " ++ fmt1Pct count total ++ "% of traffic (" ++
     toString count ++ " packets)"⟩

/-- The candidate alerts of one `detect_unusual_protocol` pass. -/
def unusualProtocolCandidates (events : List TrafficEvent) (now : Int) :
    List Candidate :=
  (unusualProtocols events now).map
    (fun p =>
      mkProtocolCandidate p (protocolCount (protocolWindow events now) p)
        (protocolWindow events now).length)

/-! ## D4: `detect_failed_connections` (lines 202-239) -/

/-- Substring test on character lists. -/
def containsSub (pat : List Char) : List Char → Bool
  | [] => pat.isPrefixOf []
  | c :: t => pat.isPrefixOf (c :: t) || containsSub pat t

/-- `flags LIKE '%SYN%'` (SQLite LIKE is ASCII case-insensitive). -/
def hasSynFlag (flags : String) : Bool :=
  containsSub "syn".data (flags.data.map Char.toLower)

/-- The window rows carrying a SYN flag. -/
def synWindow (events : List TrafficEvent) (now : Int) : List TrafficEvent :=
  (recentEvents events now 300).filter (fun e => hasSynFlag e.flags)

/-- `COUNT(*)` for one `(source_ip, destination_ip, destination_port)`
group of SYN rows. -/
def synCount (es : List TrafficEvent) (g : String × String × Nat) : Nat :=
  (es.filter (fun e =>
    e.source_ip == g.1 && e.destination_ip == g.2.1 &&
      e.destination_port == g.2.2)).length

/-- `GROUP BY ... HAVING syn_count > 50`: the qualifying groups. -/
def connectionFloodGroups (events : List TrafficEvent) (now : Int) :
    List (String × String × Nat) :=
  (((synWindow events now).map
      (fun e => (e.source_ip, e.destination_ip, e.destination_port))).dedup).filter
    (fun g => decide (50 < synCount (synWindow events now) g))

/-- The `create_alert` argument tuple of lines 230-236. -/
def mkFloodCandidate (g : String × String × Nat) (cnt : Nat) : Candidate :=
  ⟨"connection_flood", "high", some g.1,
   "High connection attempt rate from " ++ g.1,
   toString cnt ++ " SYN packets to " ++ g.2.1 ++ ":" ++ toString g.2.2 ++
     " in 5 minutes"⟩

/-- The candidate alerts of one `detect_failed_connections` pass. -/
def failedConnCandidates (events : List TrafficEvent) (now : Int) :
    List Candidate :=
  (connectionFloodGroups events now).map
    (fun g => mkFloodCandidate g (synCount (synWindow events now) g))

/-! ## D5: `detect_data_exfiltration` (lines 241-280) -/

/-- `LIKE '192.168.%'` (stated on the character list so that it evaluates
by kernel reduction). -/
def is192168 (ip : String) : Bool :=
  "192.168.".data.isPrefixOf ip.data

/-- The trailing ten-minute window restricted by the two LIKE filters
(internal source, external destination). -/
def exfilWindow (events : List TrafficEvent) (now : Int) :
    List TrafficEvent :=
  (recentEvents events now 600).filter
    (fun e => is192168 e.source_ip && !is192168 e.destination_ip)

/-- The rows of one `(source_ip, destination_ip)` group. -/
def pairEvents (es : List TrafficEvent) (s d : String) : List TrafficEvent :=
  es.filter (fun e => e.source_ip == s && e.destination_ip == d)

/-- `SUM(packet_size)` of one group. -/
def totalBytes (es : List TrafficEvent) (s d : String) : Nat :=
  ((pairEvents es s d).map (fun e => e.packet_size)).sum

/-- `COUNT(*)` of one group. -/
def pairCount (es : List TrafficEvent) (s d : String) : Nat :=
  (pairEvents es s d).length

/-- `GROUP BY source_ip, destination_ip HAVING total_bytes > 10485760`:
the qualifying pairs. -/
def exfilPairs (events : List TrafficEvent) (now : Int) :
    List (String × String) :=
  (((exfilWindow events now).map
      (fun e => (e.source_ip, e.destination_ip))).dedup).filter
    (fun p => decide (10485760 < totalBytes (exfilWindow events now) p.1 p.2))

/-- The `create_alert` argument tuple of lines 271-277. -/
def mkExfilCandidate (s d : String) (bytes cnt : Nat) : Candidate :=
  ⟨"data_exfiltration", "high", some s,
   "Large data transfer detected",
   s ++ " sent " ++ fmtMB bytes ++ "MB to " ++ d ++ " (" ++ toString cnt ++
     " packets)"⟩

/-- The candidate alerts of one `detect_data_exfiltration` pass. -/
def exfilCandidates (events : List TrafficEvent) (now : Int) :
    List Candidate :=
  (exfilPairs events now).map
    (fun p =>
      mkExfilCandidate p.1 p.2 (totalBytes (exfilWindow events now) p.1 p.2)
        (pairCount (exfilWindow events now) p.1 p.2))

/-! ## `create_alert` (lines 282-315): the Alert Deduplicator -/

/-- The SQL equality `a.source_ip = candidate.source_ip` on a nullable
column: a comparison against NULL matches no row. -/
def sqlEq : Option String → Option String → Bool
  | some a, some b => a == b
  | _, _ => false

/-- The duplicate check of lines 288-296: an open alert with the same
type and (SQL-equal) source within the last ten minutes. -/
def dupExists (db : DB) (now : Int) (c : Candidate) : Bool :=
  db.security_alerts.any (fun a =>
    a.alert_type == c.alert_type && sqlEq a.source_ip c.source_ip &&
      decide (now - 600 < a.timestamp) && a.status == "open")

/-- The row inserted at lines 300-304: timestamped now, status `'open'`. -/
def mkAlertRow (now : Int) (c : Candidate) : AlertRow :=
  ⟨now, c.alert_type, c.severity, c.source_ip, c.description, c.details,
   "open"⟩

/-- Appending the new alert row. -/
def insertAlert (db : DB) (now : Int) (c : Candidate) : DB :=
  { db with security_alerts := db.security_alerts ++ [mkAlertRow now c] }

/-- `create_alert` on a healthy store: suppress when the duplicate check
finds a row, otherwise insert. -/
def create_alert (db : DB) (now : Int) (c : Candidate) : DB :=
  if dupExists db now c then db else insertAlert db now c

/-! ## The fallible store connection and `run_all_detections` (lines 317-355)

`sqlite3` calls can raise `sqlite3.Error`.  A connection is modelled as the
database plus the set of statement tags whose execution raises; `runQ`
either raises (`Except.error`) or returns the queried value.  Inside
`create_alert` such errors are caught (lines 284, 314-315); nothing in
`run_all_detections` or in the detector bodies catches them. -/

/-- A connection: the live database and the statements that fail. -/
structure FConn where
  db : DB
  failing : List String

/-- Execute one SQL statement: raise iff its tag is marked failing. -/
def runQ (conn : FConn) (tag : String) (a : α) : Except String α :=
  if tag ∈ conn.failing then Except.error tag else Except.ok a

/-- `create_alert` over a fallible connection: the whole body is inside
`try ... except sqlite3.Error`, so an error on either statement is
swallowed and the store is left as it was. -/
def createAlertF (conn : FConn) (now : Int) (c : Candidate) : FConn :=
  match runQ conn "security_alerts.select" (dupExists conn.db now c) with
  | Except.error _ => conn
  | Except.ok dup =>
    if dup then conn
    else
      match runQ conn "security_alerts.insert" () with
      | Except.error _ => conn
      | Except.ok _ => { conn with db := insertAlert conn.db now c }

/-- The `for row in cursor.fetchall(): self.create_alert(...)` loop of a
detector body. -/
def admitAll (conn : FConn) (now : Int) (cs : List Candidate) : FConn :=
  cs.foldl (fun cn c => createAlertF cn now c) conn

/-- `run_all_detections` (lines 317-355): the five detectors in their
fixed order.  Each detector's SELECT may raise; no handler exists between
the detector calls, so an error propagates out of the whole method.  The
returned total adds each detector's `alerts_created` counter. -/
noncomputable def run_all_detections (conn : FConn)
    (cache : List (String × CacheEntry)) (now : Int) :
    Except String (FConn × Nat) :=
  match runQ conn "traffic_events.port_scan"
      (portScanCandidates conn.db.traffic_events now 5) with
  | Except.error e => Except.error e
  | Except.ok ps =>
    let conn1 := admitAll conn now ps
    match runQ conn1 "traffic_events.spike_count"
        (currentCount conn1.db.traffic_events now) with
    | Except.error e => Except.error e
    | Except.ok cnt =>
      let sp := (spikeFromCount cnt cache).toList
      let conn2 := admitAll conn1 now sp
      match runQ conn2 "traffic_events.unusual_protocol"
          (unusualProtocolCandidates conn2.db.traffic_events now) with
      | Except.error e => Except.error e
      | Except.ok up =>
        let conn3 := admitAll conn2 now up
        match runQ conn3 "traffic_events.failed_connections"
            (failedConnCandidates conn3.db.traffic_events now) with
        | Except.error e => Except.error e
        | Except.ok fc =>
          let conn4 := admitAll conn3 now fc
          match runQ conn4 "traffic_events.data_exfiltration"
              (exfilCandidates conn4.db.traffic_events now) with
          | Except.error e => Except.error e
          | Except.ok ex =>
            let conn5 := admitAll conn4 now ex
            Except.ok
              (conn5, ps.length + sp.length + up.length + fc.length + ex.length)

/-- All candidates of one healthy detection tick, in the fixed detector
order of `run_all_detections`. -/
noncomputable def tickCandidates (db : DB)
    (cache : List (String × CacheEntry)) (now : Int) : List Candidate :=
  portScanCandidates db.traffic_events now 5 ++
    (trafficSpikeCandidate db.traffic_events cache now).toList ++
    unusualProtocolCandidates db.traffic_events now ++
    failedConnCandidates db.traffic_events now ++
    exfilCandidates db.traffic_events now

/-- The store after admitting every candidate of the tick, in order. -/
noncomputable def tickFold (db : DB) (cache : List (String × CacheEntry))
    (now : Int) : DB :=
  (tickCandidates db cache now).foldl (fun d c => create_alert d now c) db

/-! ## Concrete inputs used by counterexamples and witnesses -/

/-- A traffic event with the producer's constant payload preview. -/
def mkEv (t : Int) (s d : String) (sp dp : Nat) (proto : String)
    (sz : Nat) (fl : String) : TrafficEvent :=
  ⟨t, s, d, sp, dp, proto, sz, fl, "[DATA]"⟩

/-- 21 events from one source to 21 distinct destination ports. -/
def scanEvents : List TrafficEvent :=
  (List.range 21).map (fun (i : Nat) =>
    mkEv (9800 + (i : Int)) "1.2.3.4" "9.9.9.9" 40000 (i + 1) "TCP" 100 "ACK")

/-- 11 MiB in 11 packets from a 192.168 source to an external host. -/
def exfilEvents : List TrafficEvent :=
  (List.range 11).map (fun (i : Nat) =>
    mkEv (9500 + (i : Int)) "192.168.1.5" "8.8.8.8" 40000 443 "TCP"
      1048576 "ACK")

/-- 11 MiB in 11 packets from a 10.0.0.0/8 source to an external host. -/
def c3Events : List TrafficEvent :=
  (List.range 11).map (fun (i : Nat) =>
    mkEv (9500 + (i : Int)) "10.0.0.5" "8.8.8.8" 40000 443 "TCP"
      1048576 "ACK")

/-- 11 events in 11 distinct minute buckets of the lookback window. -/
def bucketEvents : List TrafficEvent :=
  (List.range 11).map (fun (i : Nat) =>
    mkEv (100000 - 60 * ((i : Int) + 1)) "192.168.1.9" "1.1.1.1" 40000 443
      "TCP" 100 "ACK")

/-! ## Helper lemmas -/

lemma sqlEq_none_right (x : Option String) : sqlEq x none = false := by
  cases x <;> rfl

lemma sqlEq_some_right (x : Option String) (s : String) :
    sqlEq x (some s) = (x == some s) := by
  cases x <;> rfl

lemma count_filter_dedup {α : Type} [DecidableEq α] (l : List α)
    (p : α → Bool) (a : α) :
    List.count a (l.dedup.filter p) = if p a = true ∧ a ∈ l then 1 else 0 := by
  by_cases hp : p a = true
  · rw [List.count_filter hp, List.count_dedup]
    simp [hp]
  · have hnm : a ∉ l.dedup.filter p := fun hmem =>
      hp (List.mem_filter.mp hmem).2
    rw [List.count_eq_zero.mpr hnm]
    simp [hp]

/-- Occurrence count with the equality test pinned to the `DecidableEq`
instance of the element type. -/
def countEq {α : Type} [DecidableEq α] (a : α) (l : List α) : Nat :=
  l.countP (fun x => decide (x = a))

lemma countEq_cons {α : Type} [DecidableEq α] (a b : α) (t : List α) :
    countEq a (b :: t) = countEq a t + if b = a then 1 else 0 := by
  rw [countEq, List.countP_cons, countEq]
  simp

lemma countEq_nodup {α : Type} [DecidableEq α] (a : α) (l : List α)
    (h : l.Nodup) : countEq a l = if a ∈ l then 1 else 0 := by
  induction l with
  | nil => simp [countEq]
  | cons b t ih =>
    rcases List.nodup_cons.mp h with ⟨hb, ht⟩
    rw [countEq_cons, ih ht]
    by_cases hab : b = a
    · subst hab
      simp [hb]
    · have hba : ¬a = b := fun h2 => hab h2.symm
      simp [hab, hba, List.mem_cons]

lemma countEq_filter_dedup {α : Type} [DecidableEq α] (l : List α)
    (p : α → Bool) (a : α) :
    countEq a (l.dedup.filter p) = if p a = true ∧ a ∈ l then 1 else 0 := by
  rw [countEq_nodup _ _ (List.Nodup.filter p l.nodup_dedup)]
  by_cases hp : p a = true
  · simp [List.mem_filter, List.mem_dedup, hp]
  · simp [List.mem_filter, List.mem_dedup, hp]

/-! ## C9 -/

/-- C9: for every metric name other than `'packets_per_minute'`,
`establish_baseline` returns `False` and writes nothing, whatever the
profile name, lookback and store contents. -/
theorem establish_baseline_other_metric (st : AnomalyDetector)
    (profile metric : String) (lb : Nat) (now : Int)
    (h : metric ≠ "packets_per_minute") :
    establish_baseline st profile metric lb now = (st, false) := by
  simp [establish_baseline, h]

/-- Witness for C9 at a concrete metric and store. -/
theorem establish_baseline_other_metric_witness :
    ("cpu_load" : String) ≠ "packets_per_minute" ∧
      establish_baseline ⟨⟨bucketEvents, [], []⟩, []⟩ "normal_traffic"
          "cpu_load" 24 100000 =
        (⟨⟨bucketEvents, [], []⟩, []⟩, false) :=
  ⟨by decide,
   establish_baseline_other_metric ⟨⟨bucketEvents, [], []⟩, []⟩
     "normal_traffic" "cpu_load" 24 100000 (by decide)⟩

/-! ## C1 -/

/-- C1 counterexample: the lookback window yields 11 one-minute bucket
counts, yet `establish_baseline` called with the metric name `'other'`
returns `False` and writes nothing — the claim's unconditional
"persists ... and returns true" fails for a metric other than
`'packets_per_minute'`. -/
theorem establish_baseline_insufficient_metric_cex :
    10 < (bucketCounts bucketEvents 100000 24).length ∧
      (establish_baseline ⟨⟨bucketEvents, [], []⟩, []⟩ "normal_traffic"
          "other" 24 100000).2 = false ∧
      (establish_baseline ⟨⟨bucketEvents, [], []⟩, []⟩ "normal_traffic"
          "other" 24 100000).1 = ⟨⟨bucketEvents, [], []⟩, []⟩ :=
  ⟨by decide, rfl, rfl⟩

/-- C1 (amended to the metric `'packets_per_minute'`, the only one
implemented): with more than 10 one-minute bucket counts the call upserts
the row `(profile, metric, μ, σ, μ + 3σ, max 0 (μ - 3σ))` — where `μ` is
the sample mean (`μ·n` is the bucket sum) and `σ` the Bessel-corrected
sample standard deviation (`σ ≥ 0` and `σ²` is the `n−1`-divisor
variance) — and returns `True`; with 10 or fewer buckets it returns
`False` and leaves the whole state, in particular every stored baseline
row, unchanged. -/
theorem establish_baseline_packets_spec (st : AnomalyDetector)
    (profile : String) (lb : Nat) (now : Int) :
    (10 < (bucketCounts st.db.traffic_events now lb).length →
      establish_baseline st profile "packets_per_minute" lb now =
        ({ st with
            db := { st.db with
              baseline_profiles :=
                upsertBaseline
                  (mkBaselineRow profile "packets_per_minute"
                    (bucketCounts st.db.traffic_events now lb))
                  st.db.baseline_profiles } },
         true) ∧
      mean (bucketCounts st.db.traffic_events now lb) *
          ((bucketCounts st.db.traffic_events now lb).length : ℝ) =
        (((bucketCounts st.db.traffic_events now lb).map
          (fun x => (x : ℝ))).sum) ∧
      0 ≤ stdev (bucketCounts st.db.traffic_events now lb) ∧
      stdev (bucketCounts st.db.traffic_events now lb) ^ 2 =
        besselVar (bucketCounts st.db.traffic_events now lb)) ∧
    ((bucketCounts st.db.traffic_events now lb).length ≤ 10 →
      establish_baseline st profile "packets_per_minute" lb now =
        (st, false)) := by
  constructor
  · intro h
    refine ⟨by simp [establish_baseline, h], ?_, Real.sqrt_nonneg _, ?_⟩
    · have hlen : ((bucketCounts st.db.traffic_events now lb).length : ℝ) ≠ 0 :=
        Nat.cast_ne_zero.mpr (by omega)
      simp only [mean]
      exact div_mul_cancel₀ _ hlen
    · simp only [stdev]
      refine Real.sq_sqrt ?_
      apply div_nonneg
      · apply List.sum_nonneg
        intro x hx
        obtain ⟨y, hy, rfl⟩ := List.mem_map.mp hx
        exact sq_nonneg _
      · have h11 : (10 : ℝ) <
            ((bucketCounts st.db.traffic_events now lb).length : ℝ) := by
          exact_mod_cast h
        linarith
  · intro h
    have hnot : ¬10 < (bucketCounts st.db.traffic_events now lb).length := by
      omega
    simp [establish_baseline, hnot]

/-- Witness for C1 at a concrete store with 11 bucket counts. -/
theorem establish_baseline_packets_spec_witness :
    10 < (bucketCounts bucketEvents 100000 24).length ∧
      establish_baseline ⟨⟨bucketEvents, [], []⟩, []⟩ "normal_traffic"
          "packets_per_minute" 24 100000 =
        (⟨⟨bucketEvents,
           upsertBaseline
             (mkBaselineRow "normal_traffic" "packets_per_minute"
               (bucketCounts bucketEvents 100000 24)) [],
           []⟩, []⟩, true) :=
  ⟨by decide,
   ((establish_baseline_packets_spec ⟨⟨bucketEvents, [], []⟩, []⟩
       "normal_traffic" 24 100000).1 (by decide)).1⟩

/-! ## C10 -/

/-- C10: `establish_baseline` writes only the persistent store: the
in-memory baseline cache (loaded once at construction by
`load_baselines`) and the event log are untouched, so a subsequent
`detect_traffic_spike` computes exactly the candidate it would have
computed before the call. -/
theorem establish_baseline_cache_frame :
    (∀ db : DB, (mkDetector db).baselines = load_baselines db.baseline_profiles) ∧
      ∀ (st : AnomalyDetector) (p m : String) (lb : Nat) (now now2 : Int),
        (establish_baseline st p m lb now).1.baselines = st.baselines ∧
        (establish_baseline st p m lb now).1.db.traffic_events =
          st.db.traffic_events ∧
        trafficSpikeCandidate (establish_baseline st p m lb now).1.db.traffic_events
            (establish_baseline st p m lb now).1.baselines now2 =
          trafficSpikeCandidate st.db.traffic_events st.baselines now2 := by
  refine ⟨fun db => rfl, fun st p m lb now now2 => ?_⟩
  by_cases h1 : m = "packets_per_minute" <;>
    by_cases h2 : 10 < (bucketCounts st.db.traffic_events now lb).length <;>
    simp [establish_baseline, h1, h2]

/-! ## C5 -/

/-- C5: `detect_traffic_spike` produces a candidate iff the cache holds a
baseline under the key `normal_traffic_packets_per_minute` and the
trailing one-minute event count strictly exceeds its `threshold_high`;
the candidate's severity is `critical` exactly when the count exceeds
twice `threshold_high` and `high` otherwise; with no such baseline no
candidate is produced, whatever the event store holds. -/
theorem traffic_spike_spec (events : List TrafficEvent)
    (cache : List (String × CacheEntry)) (now : Int) :
    (lookupCache cache "normal_traffic_packets_per_minute" = none →
      trafficSpikeCandidate events cache now = none) ∧
    (∀ b, lookupCache cache "normal_traffic_packets_per_minute" = some b →
      trafficSpikeCandidate events cache now =
        (if (currentCount events now : ℝ) > b.threshold_high
         then some (mkSpikeCandidate (currentCount events now) b)
         else none)) ∧
    (∀ b c, lookupCache cache "normal_traffic_packets_per_minute" = some b →
      trafficSpikeCandidate events cache now = some c →
      c.alert_type = "traffic_spike" ∧ c.source_ip = none ∧
        c.severity =
          (if (currentCount events now : ℝ) > 2 * b.threshold_high
           then "critical" else "high")) := by
  refine ⟨fun h => ?_, fun b h => ?_, fun b c h hc => ?_⟩
  · simp [trafficSpikeCandidate, spikeFromCount, h]
  · simp [trafficSpikeCandidate, spikeFromCount, h]
  · simp only [trafficSpikeCandidate, spikeFromCount, h] at hc
    by_cases hgt : (currentCount events now : ℝ) > b.threshold_high
    · rw [if_pos hgt] at hc
      cases hc
      refine ⟨rfl, rfl, ?_⟩
      simp [mkSpikeCandidate, mul_comm]
    · rw [if_neg hgt] at hc
      cases hc

/-- A concrete cache entry with `threshold_high = 2`. -/
noncomputable def wCacheB : CacheEntry := ⟨1, 0, 2, 0⟩

/-- A concrete one-entry baseline cache. -/
noncomputable def wCache : List (String × CacheEntry) :=
  [("normal_traffic_packets_per_minute", wCacheB)]

/-- Witness for C5 at a concrete cache. -/
theorem traffic_spike_spec_witness :
    lookupCache wCache "normal_traffic_packets_per_minute" = some wCacheB ∧
      trafficSpikeCandidate scanEvents wCache 10000 =
        (if (currentCount scanEvents 10000 : ℝ) > wCacheB.threshold_high
         then some (mkSpikeCandidate (currentCount scanEvents 10000) wCacheB)
         else none) :=
  ⟨rfl, (traffic_spike_spec scanEvents wCache 10000).2.1 wCacheB rfl⟩

/-! ## C8 -/

/-- C8: a candidate with NULL `source_ip` — as the traffic-spike and
unusual-protocol detectors produce — is never suppressed: the SQL
equality against NULL matches no stored row, so `create_alert` always
appends a fresh open alert, whatever `security_alerts` already holds. -/
theorem null_source_never_suppressed :
    (∀ (db : DB) (now : Int) (c : Candidate), c.source_ip = none →
      create_alert db now c =
        { db with security_alerts := db.security_alerts ++ [mkAlertRow now c] }) ∧
    (∀ (events : List TrafficEvent) (cache : List (String × CacheEntry))
        (now : Int) (c : Candidate),
      trafficSpikeCandidate events cache now = some c → c.source_ip = none) ∧
    (∀ (events : List TrafficEvent) (now : Int) (c : Candidate),
      c ∈ unusualProtocolCandidates events now → c.source_ip = none) := by
  refine ⟨fun db now c hc => ?_, fun events cache now c hc => ?_,
    fun events now c hc => ?_⟩
  · have hdup : dupExists db now c = false := by
      simp [dupExists, hc, sqlEq_none_right]
    simp [create_alert, hdup, insertAlert]
  · rcases hfind : lookupCache cache "normal_traffic_packets_per_minute" with
      _ | b
    · simp only [trafficSpikeCandidate, spikeFromCount, hfind] at hc
      cases hc
    · simp only [trafficSpikeCandidate, spikeFromCount, hfind] at hc
      by_cases hgt : (currentCount events now : ℝ) > b.threshold_high
      · rw [if_pos hgt] at hc
        cases hc
        rfl
      · rw [if_neg hgt] at hc
        cases hc
  · obtain ⟨p, hp, rfl⟩ := List.mem_map.mp hc
    rfl

/-- A store already holding an open NULL-source alert of the same type. -/
def wDB8 : DB := ⟨[], [], [⟨940, "unusual_protocol", "medium", none, "d", "t", "open"⟩]⟩

/-- A NULL-source candidate of that same type. -/
def wC8 : Candidate := ⟨"unusual_protocol", "medium", none, "d2", "t2"⟩

/-- Witness for C8: the natural-equality duplicate is present, yet the
candidate is persisted as a second row. -/
theorem null_source_never_suppressed_witness :
    (wDB8.security_alerts.any (fun a =>
        a.alert_type == wC8.alert_type && a.source_ip == wC8.source_ip &&
          decide (1000 - 600 < a.timestamp) && a.status == "open")) = true ∧
      create_alert wDB8 1000 wC8 =
        { wDB8 with
            security_alerts := wDB8.security_alerts ++ [mkAlertRow 1000 wC8] } :=
  ⟨by decide, null_source_never_suppressed.1 wDB8 1000 wC8 rfl⟩

/-! ## C2 -/

/-- The store and candidate refuting C2: an open alert with the very same
`(alert_type, source_ip)` key — both sources NULL — created 60 seconds
ago. -/
def cexDB2 : DB := ⟨[], [], [⟨940, "traffic_spike", "high", none, "d", "t", "open"⟩]⟩

/-- The traffic-spike-shaped candidate submitted 60 seconds later. -/
def cexC2 : Candidate := ⟨"traffic_spike", "critical", none, "d2", "t2"⟩

/-- C2 counterexample: an alert with the same `(alert_type, source_ip)`
key, status open, timestamp within the last 10 minutes exists, yet the
candidate is not suppressed — a second row is persisted, because the SQL
comparison `source_ip = NULL` matches no row. -/
theorem create_alert_dedup_cex :
    (cexDB2.security_alerts.any (fun a =>
        a.alert_type == cexC2.alert_type && a.source_ip == cexC2.source_ip &&
          decide (1000 - 600 < a.timestamp) && a.status == "open")) = true ∧
      (create_alert cexDB2 1000 cexC2).security_alerts.length = 2 := by
  decide

/-- C2 (amended to candidates with non-NULL `source_ip`; a NULL-source
candidate is never suppressed): such a candidate is suppressed iff an
alert with the same `(alert_type, source_ip)` key, status `open` and
timestamp within the last 10 minutes is stored; otherwise it is persisted
as a new row with status `open` and the current timestamp. -/
theorem create_alert_dedup_spec (db : DB) (now : Int) (c : Candidate)
    (s : String) (h : c.source_ip = some s) :
    create_alert db now c =
      (if db.security_alerts.any (fun a =>
          a.alert_type == c.alert_type && a.source_ip == some s &&
            decide (now - 600 < a.timestamp) && a.status == "open")
       then db
       else { db with
          security_alerts := db.security_alerts ++ [mkAlertRow now c] }) := by
  simp only [create_alert, dupExists, insertAlert, h, sqlEq_some_right]

/-- A store holding an open alert for `("port_scan", "1.2.3.4")`. -/
def wDB2 : DB := ⟨[], [], [⟨940, "port_scan", "medium", some "1.2.3.4", "d", "t", "open"⟩]⟩

/-- A candidate with the same non-NULL key. -/
def wC2 : Candidate := ⟨"port_scan", "high", some "1.2.3.4", "d2", "t2"⟩

/-- Witness for the amended C2 at a concrete store and candidate. -/
theorem create_alert_dedup_witness :
    create_alert wDB2 1000 wC2 =
      (if wDB2.security_alerts.any (fun a =>
          a.alert_type == wC2.alert_type && a.source_ip == some "1.2.3.4" &&
            decide (1000 - 600 < a.timestamp) && a.status == "open")
       then wDB2
       else { wDB2 with
          security_alerts := wDB2.security_alerts ++ [mkAlertRow 1000 wC2] }) :=
  create_alert_dedup_spec wDB2 1000 wC2 "1.2.3.4" rfl

/-! ## C4 -/

lemma mem_sources_of_ports (es : List TrafficEvent) (s : String)
    (h : 0 < distinctPorts es s) : s ∈ es.map (fun e => e.source_ip) := by
  rcases hne : eventsFrom es s with _ | ⟨e, t⟩
  · simp [distinctPorts, hne] at h
  · have he : e ∈ eventsFrom es s := by
      rw [hne]
      exact List.mem_cons_self _ _
    have h2 := List.mem_filter.mp he
    refine List.mem_map.mpr ⟨e, h2.1, ?_⟩
    simpa using h2.2

lemma countP_map_source (l : List String) (f : String → Candidate)
    (hf : ∀ x, (f x).source_ip = some x) (s : String) :
    (l.map f).countP (fun c => c.source_ip == some s) = List.count s l := by
  induction l with
  | nil => rfl
  | cons a t ih =>
    simp [List.countP_cons, List.count_cons, hf a, ih]

/-- C4: `detect_port_scan` produces exactly one `port_scan` candidate for
a source IP iff that IP contacted more than 20 distinct destination ports
within the window, and that candidate's severity is `high` iff the
distinct-port count exceeds 50, `medium` otherwise. -/
theorem port_scan_spec (events : List TrafficEvent) (now : Int) (lb : Nat)
    (s : String) :
    List.count s (portScanSources events now lb) =
      (if 20 < distinctPorts (recentEvents events now ((lb : Int) * 60)) s
       then 1 else 0) ∧
    portScanCandidates events now lb =
      (portScanSources events now lb).map (fun x =>
        mkPortScanCandidate x
          (distinctPorts (recentEvents events now ((lb : Int) * 60)) x)
          (attemptsFrom (recentEvents events now ((lb : Int) * 60)) x) lb) ∧
    (portScanCandidates events now lb).countP
        (fun c => c.source_ip == some s) =
      (if 20 < distinctPorts (recentEvents events now ((lb : Int) * 60)) s
       then 1 else 0) ∧
    ∀ c ∈ portScanCandidates events now lb, c.source_ip = some s →
      c.alert_type = "port_scan" ∧
        c.severity =
          (if 50 < distinctPorts (recentEvents events now ((lb : Int) * 60)) s
           then "high" else "medium") := by
  have hcount : List.count s (portScanSources events now lb) =
      (if 20 < distinctPorts (recentEvents events now ((lb : Int) * 60)) s
       then 1 else 0) := by
    rw [portScanSources, count_filter_dedup]
    by_cases h20 :
        20 < distinctPorts (recentEvents events now ((lb : Int) * 60)) s
    · rw [if_pos h20, if_pos]
      exact ⟨decide_eq_true h20, mem_sources_of_ports _ _ (by omega)⟩
    · rw [if_neg h20, if_neg]
      rintro ⟨hp, -⟩
      exact h20 (of_decide_eq_true hp)
  refine ⟨hcount, rfl, ?_, ?_⟩
  · rw [portScanCandidates,
      countP_map_source _ _ (fun x => rfl) s, hcount]
  · intro c hc hsrc
    rw [portScanCandidates] at hc
    obtain ⟨x, hx, rfl⟩ := List.mem_map.mp hc
    cases Option.some.inj hsrc
    exact ⟨rfl, rfl⟩

/-- Witness for C4: the concrete 21-port scan yields the `port_scan`
candidate of severity `medium`. -/
theorem port_scan_spec_witness :
    mkPortScanCandidate "1.2.3.4" 21 21 5 ∈ portScanCandidates scanEvents 10000 5 ∧
      (mkPortScanCandidate "1.2.3.4" 21 21 5).alert_type = "port_scan" ∧
      (mkPortScanCandidate "1.2.3.4" 21 21 5).severity =
        (if 50 < distinctPorts (recentEvents scanEvents 10000 ((5 : Int) * 60))
              "1.2.3.4"
         then "high" else "medium") :=
  ⟨by decide,
   (port_scan_spec scanEvents 10000 5 "1.2.3.4").2.2.2 _ (by decide) (by decide)⟩

/-! ## C3 -/

lemma mem_pairs_of_bytes (w : List TrafficEvent) (s d : String)
    (h : 0 < totalBytes w s d) :
    (s, d) ∈ w.map (fun e => (e.source_ip, e.destination_ip)) := by
  rcases hne : pairEvents w s d with _ | ⟨e, t⟩
  · simp [totalBytes, hne] at h
  · have he : e ∈ pairEvents w s d := by
      rw [hne]
      exact List.mem_cons_self _ _
    have h2 := List.mem_filter.mp he
    have h3 := h2.2
    simp only [Bool.and_eq_true, beq_iff_eq] at h3
    refine List.mem_map.mpr ⟨e, h2.1, ?_⟩
    simp [h3.1, h3.2]

/-- C3 (amended: the code's notion of "internal" is the literal prefix
`192.168.`, not the whole RFC1918 private space): for every
`(source_ip, destination_ip)` pair, the ten-minute window yields exactly
one `data_exfiltration` candidate (severity `high`, details carrying the
two-decimal megabyte figure) iff the source starts with `192.168.`, the
destination does not, and the pair's summed `packet_size` strictly
exceeds 10 485 760 bytes; otherwise no candidate for that pair. -/
theorem data_exfiltration_spec (events : List TrafficEvent) (now : Int)
    (s d : String) :
    countEq (s, d) (exfilPairs events now) =
      (if is192168 s = true ∧ is192168 d = false ∧
          10485760 < totalBytes (exfilWindow events now) s d
       then 1 else 0) ∧
    exfilCandidates events now =
      (exfilPairs events now).map (fun p =>
        mkExfilCandidate p.1 p.2 (totalBytes (exfilWindow events now) p.1 p.2)
          (pairCount (exfilWindow events now) p.1 p.2)) ∧
    ∀ c ∈ exfilCandidates events now,
      c.alert_type = "data_exfiltration" ∧ c.severity = "high" := by
  refine ⟨?_, rfl, ?_⟩
  · rw [exfilPairs, countEq_filter_dedup]
    by_cases hcond : is192168 s = true ∧ is192168 d = false ∧
        10485760 < totalBytes (exfilWindow events now) s d
    · rw [if_pos hcond, if_pos]
      exact ⟨decide_eq_true hcond.2.2,
        mem_pairs_of_bytes _ _ _ (by omega)⟩
    · rw [if_neg hcond, if_neg]
      rintro ⟨hp, hmem⟩
      obtain ⟨e, he, hpair⟩ := List.mem_map.mp hmem
      have h2 := List.mem_filter.mp he
      have h3 := h2.2
      simp only [Bool.and_eq_true, Bool.not_eq_true'] at h3
      have hs : e.source_ip = s := congrArg Prod.fst hpair
      have hd : e.destination_ip = d := congrArg Prod.snd hpair
      exact hcond ⟨hs ▸ h3.1, hd ▸ h3.2, of_decide_eq_true hp⟩
  · intro c hc
    rw [exfilCandidates] at hc
    obtain ⟨p, hp, rfl⟩ := List.mem_map.mp hc
    exact ⟨rfl, rfl⟩

/-- Witness for the amended C3: the concrete 11 MiB transfer from
`192.168.1.5` yields exactly the candidate whose details string carries
`11.00MB`. -/
theorem data_exfiltration_spec_witness :
    mkExfilCandidate "192.168.1.5" "8.8.8.8" 11534336 11 ∈
        exfilCandidates exfilEvents 10000 ∧
      (mkExfilCandidate "192.168.1.5" "8.8.8.8" 11534336 11).alert_type =
        "data_exfiltration" ∧
      (mkExfilCandidate "192.168.1.5" "8.8.8.8" 11534336 11).severity =
        "high" :=
  ⟨by decide,
   (data_exfiltration_spec exfilEvents 10000 "192.168.1.5" "8.8.8.8").2.2 _
     (by decide)⟩

/-- Split a character list at the dots. -/
def splitDots : List Char → List (List Char)
  | [] => [[]]
  | c :: t =>
    if c = '.' then [] :: splitDots t
    else
      match splitDots t with
      | [] => [[c]]
      | h :: r => (c :: h) :: r

/-- Parse a nonempty digit string. -/
def parseDigits : List Char → Nat → Option Nat
  | [], acc => some acc
  | c :: t, acc =>
    if '0' ≤ c ∧ c ≤ '9' then parseDigits t (acc * 10 + (c.toNat - '0'.toNat))
    else none

/-- The claim's notion of an internal address: the RFC1918 private
ranges (10.0.0.0/8, 172.16.0.0/12, 192.168.0.0/16).  Follows the claim's
and spec's words ("source_ip is internal (private range)"); used only to
state the counterexample. -/
def isPrivateRange (ip : String) : Bool :=
  match splitDots ip.data with
  | a :: b :: _ :: _ :: [] =>
    a == "10".data || (a == "192".data && b == "168".data) ||
      (a == "172".data &&
        (match parseDigits b 0 with
         | some n => decide (16 ≤ n) && decide (n ≤ 31)
         | none => false))
  | _ => false

/-- C3 counterexample: 11 MiB flows within ten minutes from `10.0.0.5`
(a private-range source) to the external `8.8.8.8`, yet
`detect_data_exfiltration` produces no candidate at all — the code only
treats the `192.168.` prefix as internal. -/
theorem data_exfiltration_private_range_cex :
    isPrivateRange "10.0.0.5" = true ∧
      isPrivateRange "8.8.8.8" = false ∧
      10485760 < totalBytes (recentEvents c3Events 10000 600) "10.0.0.5" "8.8.8.8" ∧
      exfilCandidates c3Events 10000 = [] := by
  decide

/-! ## C7 -/

lemma runQ_nil {α : Type} (db : DB) (tag : String) (a : α) :
    runQ ⟨db, []⟩ tag a = Except.ok a := by
  simp [runQ]

lemma createAlertF_nil (db : DB) (now : Int) (c : Candidate) :
    createAlertF ⟨db, []⟩ now c = ⟨create_alert db now c, []⟩ := by
  simp only [createAlertF, runQ_nil]
  cases h : dupExists db now c
  · simp [h, create_alert]
  · simp [h, create_alert]

lemma admitAll_nil (now : Int) (cs : List Candidate) (db : DB) :
    admitAll ⟨db, []⟩ now cs =
      ⟨cs.foldl (fun d c => create_alert d now c) db, []⟩ := by
  induction cs generalizing db with
  | nil => rfl
  | cons c t ih =>
    show admitAll (createAlertF ⟨db, []⟩ now c) now t = _
    rw [createAlertF_nil, ih, List.foldl_cons]

lemma create_alert_traffic (db : DB) (now : Int) (c : Candidate) :
    (create_alert db now c).traffic_events = db.traffic_events := by
  rw [create_alert]
  split <;> rfl

lemma foldl_create_traffic (now : Int) (cs : List Candidate) (db : DB) :
    (cs.foldl (fun d c => create_alert d now c) db).traffic_events =
      db.traffic_events := by
  induction cs generalizing db with
  | nil => rfl
  | cons c t ih => rw [List.foldl_cons, ih, create_alert_traffic]

/-- C7 (amended: the aggregated total counts every candidate the
detectors produced, whether or not the Deduplicator suppressed it): on a
healthy store a tick runs the five detectors in their fixed order, admits
each candidate through `create_alert` in that order, and returns the
number of candidates — not the number of alerts actually persisted. -/
theorem run_all_detections_healthy (db : DB)
    (cache : List (String × CacheEntry)) (now : Int) :
    run_all_detections ⟨db, []⟩ cache now =
      Except.ok (⟨tickFold db cache now, []⟩,
        (tickCandidates db cache now).length) := by
  simp only [run_all_detections, runQ_nil, admitAll_nil, foldl_create_traffic,
    tickFold, tickCandidates, trafficSpikeCandidate, List.foldl_append,
    List.length_append]

/-- A store with one open `("port_scan", "1.2.3.4")` alert from 60
seconds ago and a fresh 21-port scan from the same source. -/
def c7DB : DB :=
  ⟨scanEvents, [],
   [⟨9940, "port_scan", "medium", some "1.2.3.4", "x", "y", "open"⟩]⟩

/-- C7 counterexample: the tick's only candidate is suppressed by the
Deduplicator — `security_alerts` is unchanged, zero alerts were persisted
— yet `run_all_detections` returns a total of 1: suppressed candidates do
contribute to the returned total. -/
theorem run_all_total_counts_suppressed_cex :
    (match run_all_detections ⟨c7DB, []⟩ [] 10000 with
     | Except.ok (cn, n) =>
       n == 1 && cn.db.security_alerts == c7DB.security_alerts
     | Except.error _ => false) = true := by
  decide

/-! ## C6 -/

/-- A store whose ten-minute window holds an 11 MiB internal-to-external
transfer: the exfiltration detector would fire. -/
def c6DB : DB := ⟨exfilEvents, [], []⟩

/-- C6 evidence: when the port-scan SELECT raises, `run_all_detections`
propagates the error — none of the four remaining detectors runs, and
the data-exfiltration alert the same tick would otherwise have persisted
(second conjunct) never appears.  There is no per-detector handler in
`run_all_detections`. -/
theorem run_all_failing_detector_cex :
    (match run_all_detections ⟨c6DB, ["traffic_events.port_scan"]⟩ [] 10000 with
     | Except.error t => t == "traffic_events.port_scan"
     | Except.ok _ => false) = true ∧
    (match run_all_detections ⟨c6DB, []⟩ [] 10000 with
     | Except.ok (cn, n) =>
       n == 1 && cn.db.security_alerts.length == 1 &&
         cn.db.security_alerts.countP
           (fun a => a.alert_type == "data_exfiltration") == 1
     | Except.error _ => false) = true := by
  constructor
  · decide
  · decide
